import Mathlib

/-!
# tchmusic: a shallow embedding of `main.go`

The program polls a "now playing" feed and drives a music player through the
provider's REST API.  Every external call (provider API, feed HTTP request,
configuration store, browser login) is a field of an environment record that
threads an abstract world state `σ`; the Go code becomes explicit state
passing, and each call appends an `Event` to a trace so that "which calls were
made, and in which order" is a property of the returned state.

Go conventions used throughout:
* an `error` value is `Option Error` (`none` is `nil`);
* a `(value, error)` result that the code only reads after `err != nil` was
  excluded is an `Except Error value`;
* a run-time panic (index or slice bounds out of range) is `Outcome.panicked`.
-/

namespace Tchmusic

/-- A non-nil Go `error`, identified by its message. -/
abbrev Error := String

/-- Result of running a piece of Go code: it returns a value or it panics. -/
inductive Outcome (α : Type) where
  | returned (a : α)
  | panicked (msg : String)
  deriving DecidableEq, Repr

/-- Whether a run ended in a panic. -/
def Outcome.isPanic {α : Type} : Outcome α → Bool
  | .returned _ => false
  | .panicked _ => true

/-- A Go `[]string`: `elems` are the `len` visible elements, `spare` is the rest
of the backing array up to the capacity, so `cap = len + spare.length`. -/
structure StringSlice where
  elems : List String
  spare : List String
  deriving DecidableEq, Repr

namespace StringSlice

/-- The nil slice, the zero value of a `[]string` variable. -/
def nil : StringSlice := { elems := [], spare := [] }

/-- Slice literal `[]string{...}`: capacity equals length. -/
def lit (xs : List String) : StringSlice := { elems := xs, spare := [] }

/-- Go `len(s)`. -/
def len (s : StringSlice) : Nat := s.elems.length

/-- Go `cap(s)`. -/
def cap (s : StringSlice) : Nat := s.elems.length + s.spare.length

/-- Go `s[:high]`: legal exactly when `high ≤ cap(s)`, and then the result has
length `high` (reaching into the spare part of the backing array if needed);
otherwise the expression panics, here `none`. -/
def sliceTo (s : StringSlice) (high : Nat) : Option StringSlice :=
  if high ≤ s.cap then
    some { elems := (s.elems ++ s.spare).take high, spare := (s.elems ++ s.spare).drop high }
  else
    none

end StringSlice

/-- Feed song, `type Song struct`; time stamps are instants on an integer clock. -/
structure Song where
  Name : String
  Starts : Int
  Ends : Int
  Type_ : String
  FileID : Int
  Track : String
  Artist : String
  Image : String
  Album : String
  deriving DecidableEq, Repr

/-- The zero value of `Song`. -/
def Song.zero : Song :=
  { Name := "", Starts := 0, Ends := 0, Type_ := "", FileID := 0, Track := "", Artist := "",
    Image := "", Album := "" }

/-- Feed document, `type MusicInfo struct`. -/
structure MusicInfo where
  Previous : Song
  Current : Song
  Next : Song
  SchedulerTime : Int
  Expire : Int
  deriving DecidableEq, Repr

/-- The zero value of `MusicInfo`, what `var musicInfo MusicInfo` holds before decoding. -/
def MusicInfo.zero : MusicInfo :=
  { Previous := Song.zero, Current := Song.zero, Next := Song.zero, SchedulerTime := 0, Expire := 0 }

def loginCallbackPath : String := "/callback"
def loginServerAddress : String := "127.0.0.1:8090"
def state : String := "2019-12-14T00:40:29+07:00"
def envPrefix : String := "tch"
def configName : String := ".tchmusic"
def configType : String := "yaml"
def musicInfoEndpoint : String := "https://api.thecoffeehouse.com/api/get_music_info"

/-! ## The provider client (`github.com/zmb3/spotify`), as far as `main.go` uses it -/

namespace spotify

/-- The fields of `spotify.SimpleTrack` read by the program. -/
structure SimpleTrack where
  URI : String
  Name : String
  deriving DecidableEq, Repr

/-- A `spotify.FullTrack` embeds a `SimpleTrack`. -/
structure FullTrack where
  SimpleTrack : SimpleTrack
  deriving DecidableEq, Repr

/-- The `spotify.FullTrackPage` inside a search result: `Total` is a Go `int`. -/
structure FullTrackPage where
  Total : Int
  Tracks : List FullTrack
  deriving DecidableEq, Repr

/-- The part of `spotify.SearchResult` read by the program. -/
structure SearchResult where
  Tracks : FullTrackPage
  deriving DecidableEq, Repr

/-- The part of `spotify.FullArtist` read by the program. -/
structure FullArtist where
  Genres : StringSlice
  deriving DecidableEq, Repr

/-- The part of `spotify.FullArtistPage` read by the program. -/
structure FullArtistPage where
  Artists : List FullArtist
  deriving DecidableEq, Repr

/-- The part of `spotify.Recommendations` read by the program. -/
structure Recommendations where
  Tracks : List SimpleTrack
  deriving DecidableEq, Repr

/-- The part of `spotify.PlayerDevice` read by the program. -/
structure PlayerDevice where
  ID : String
  deriving DecidableEq, Repr

/-- The part of `spotify.PlayerState` read by the program. -/
structure PlayerState where
  Playing : Bool
  Device : PlayerDevice
  deriving DecidableEq, Repr

/-- Search options `spotify.Options` (pointer fields are options). -/
structure Options where
  Country : Option String
  Limit : Option Int
  deriving DecidableEq, Repr

/-- Play command `spotify.PlayOptions`. -/
structure PlayOptions where
  DeviceID : Option String
  URIs : List String
  deriving DecidableEq, Repr

/-- Seeds of a recommendation request, `spotify.Seeds` (only genres are set). -/
structure Seeds where
  Genres : List String
  deriving DecidableEq, Repr

/-- The provider API behind `spotify.Client`: each method reads and advances an
abstract world state `σ`, so successive calls may answer differently. -/
structure Client (σ : Type) where
  PlayerState : σ → Except Error spotify.PlayerState × σ
  SearchOpt : String → spotify.Options → σ → Except Error spotify.SearchResult × σ
  CurrentUsersTopArtists : σ → (Option spotify.FullArtistPage × Option Error) × σ
  GetRecommendations : spotify.Seeds → σ → Except Error spotify.Recommendations × σ
  PlayerDevices : σ → Except Error (List spotify.PlayerDevice) × σ
  PlayOpt : spotify.PlayOptions → σ → Option Error × σ

end spotify

/-- The HTTP response of the feed: `Body` is what `ioutil.ReadAll(res.Body)` yields. -/
structure Response where
  Body : Except Error String

/-- The libraries `getTchMusicInfo` relies on: `http.NewRequest` (its error for a
method and URL), `httpClient.Do` (for a URL and the client timeout in seconds)
and `json.Unmarshal` into a zero `MusicInfo`. -/
structure Net (σ : Type) where
  NewRequest : String → String → Option Error
  Do : String → Nat → σ → Except Error Response × σ
  Unmarshal : String → Except Error MusicInfo

/-- Observable actions of the poll loop, in program order. -/
inductive Event where
  | PlayerState
  | Feed (url : String)
  | SearchOpt (query : String) (opts : spotify.Options)
  | CurrentUsersTopArtists
  | GetRecommendations (seeds : spotify.Seeds)
  | PlayerDevices
  | PlayOpt (opts : spotify.PlayOptions)
  | logError (err : Option Error)
  | logInfo (msg : String)
  | tick
  deriving DecidableEq, Repr

/-- Program state of the poll loop: the external world, the package variable
`availableGenreSeeds`, and the trace of actions so far. -/
structure State (σ : Type) where
  world : σ
  availableGenreSeeds : StringSlice
  trace : List Event

/-- Record an action and move the world to `w`. -/
def State.step {σ : Type} (s : State σ) (e : Event) (w : σ) : State σ :=
  { s with world := w, trace := s.trace ++ [e] }

/-- Record an action that leaves the world alone (logging, ticking). -/
def State.emit {σ : Type} (s : State σ) (e : Event) : State σ :=
  { s with trace := s.trace ++ [e] }

/-- Go `strings.Join`. -/
def stringsJoin (xs : List String) (sep : String) : String := sep.intercalate xs

/-- Lines 219-227 of `playSong`: fill `availableGenreSeeds` when it is empty. -/
def seedGenres {σ : Type} (client : spotify.Client σ) (s : State σ) : Outcome Unit × State σ :=
  if s.availableGenreSeeds.len = 0 then
    match client.CurrentUsersTopArtists s.world with
    | ((topArtists, err), w) =>
      let s := s.step .CurrentUsersTopArtists w
      match err, topArtists with
      | none, some page =>
        match page.Artists with
        | [] => (.panicked "index out of range [0] with length 0", s)
        | artist :: _ =>
          match artist.Genres.sliceTo 4 with
          | none => (.panicked "slice bounds out of range [:4]", s)
          | some genres => (.returned (), { s with availableGenreSeeds := genres })
      | _, _ =>
        let s := s.emit (.logError err)
        (.returned (), { s with availableGenreSeeds := StringSlice.lit ["pop"] })
  else
    (.returned (), s)

/-- The query string of line 210. -/
def searchQuery (song : Song) : String :=
  "track:" ++ song.Name ++ " " ++ "artist:" ++ song.Artist

/-- The search options of lines 208-210: country `"VN"`, limit `1`. -/
def searchOptions : spotify.Options :=
  let searchCountry := "VN"
  let searchLimit : Int := 1
  { Country := some searchCountry, Limit := some searchLimit }

/-- Lines 208-240 of `playSong`: resolve the song to a track, by search or by a
genre-seeded recommendation.  `Except.error e` is `return e`. -/
def selectTrack {σ : Type} (client : spotify.Client σ) (song : Song) (s : State σ) :
    Outcome (Except Error spotify.SimpleTrack) × State σ :=
  match client.SearchOpt (searchQuery song) searchOptions s.world with
  | (.error err, w) =>
    (.returned (.error err), s.step (.SearchOpt (searchQuery song) searchOptions) w)
  | (.ok searchResult, w) =>
    let s := s.step (.SearchOpt (searchQuery song) searchOptions) w
    if searchResult.Tracks.Total > 0 then
      match searchResult.Tracks.Tracks with
      | [] => (.panicked "index out of range [0] with length 0", s)
      | t :: _ => (.returned (.ok t.SimpleTrack), s)
    else
      let s := s.emit (.logInfo ("song not found: " ++ song.Name))
      match seedGenres client s with
      | (.panicked msg, s) => (.panicked msg, s)
      | (.returned (), s) =>
        let seeds : spotify.Seeds := { Genres := s.availableGenreSeeds.elems }
        match client.GetRecommendations seeds s.world with
        | (.error err, w) => (.returned (.error err), s.step (.GetRecommendations seeds) w)
        | (.ok recommendations, w) =>
          let s := s.step (.GetRecommendations seeds) w
          match recommendations.Tracks with
          | [] => (.returned (.error "no song"), s)
          | t :: _ =>
            (.returned (.ok t),
              s.emit (.logInfo ("Recommend a song in genre " ++
                stringsJoin s.availableGenreSeeds.elems ",")))

/-- Lines 242-269 of `playSong`: find the device and issue the play command. -/
def playTrack {σ : Type} (client : spotify.Client σ) (track : spotify.SimpleTrack) (s : State σ) :
    Option Error × State σ :=
  let s := s.emit (.logInfo ("play: " ++ track.Name))
  let playOptions : spotify.PlayOptions := { DeviceID := none, URIs := [track.URI] }
  match client.PlayerState s.world with
  | (.error err, w) => (some err, s.step .PlayerState w)
  | (.ok playerState, w) =>
    let s := s.step .PlayerState w
    if playerState.Device.ID ≠ "" then
      match client.PlayerDevices s.world with
      | (.error err, w) => (some err, s.step .PlayerDevices w)
      | (.ok devices, w) =>
        let s := s.step .PlayerDevices w
        match devices with
        | [] => (some "no device", s)
        | d :: _ =>
          let playOptions := { playOptions with DeviceID := some d.ID }
          match client.PlayOpt playOptions s.world with
          | (some err, w) => (some err, s.step (.PlayOpt playOptions) w)
          | (none, w) => (none, s.step (.PlayOpt playOptions) w)
    else
      match client.PlayOpt playOptions s.world with
      | (some err, w) => (some err, s.step (.PlayOpt playOptions) w)
      | (none, w) => (none, s.step (.PlayOpt playOptions) w)

/-- The function `playSong` (lines 207-269): select a track, then play it. -/
def playSong {σ : Type} (client : spotify.Client σ) (song : Song) (s : State σ) :
    Outcome (Option Error) × State σ :=
  match selectTrack client song s with
  | (.panicked msg, s) => (.panicked msg, s)
  | (.returned (.error err), s) => (.returned (some err), s)
  | (.returned (.ok track), s) =>
    match playTrack client track s with
    | (err, s) => (.returned err, s)

/-- The function `getTchMusicInfo` (lines 271-297).  The three later failure
branches return the variable `err` of `http.NewRequest`, as the source does. -/
def getTchMusicInfo {σ : Type} (net : Net σ) (s : State σ) :
    (Option Song × Option Error) × State σ :=
  let timeout := 5
  let err := net.NewRequest "GET" musicInfoEndpoint
  if err ≠ none then
    ((none, err), s)
  else
    match net.Do musicInfoEndpoint timeout s.world with
    | (.error _getErr, w) => ((none, err), s.step (.Feed musicInfoEndpoint) w)
    | (.ok res, w) =>
      let s := s.step (.Feed musicInfoEndpoint) w
      match res.Body with
      | .error _readErr => ((none, err), s)
      | .ok body =>
        match net.Unmarshal body with
        | .error _jsonErr => ((none, err), s)
        | .ok musicInfo => ((some musicInfo.Current, none), s)

/-- One pass through the body of the `for` loop of `startApp` (lines 182-203);
every `continue` and the normal end of the body return `()`. -/
def pollIteration {σ : Type} (client : spotify.Client σ) (net : Net σ) (s : State σ) :
    Outcome Unit × State σ :=
  match client.PlayerState s.world with
  | (.error err, w) => (.returned (), (s.step .PlayerState w).emit (.logError (some err)))
  | (.ok playerState, w) =>
    let s := s.step .PlayerState w
    if playerState.Playing then
      (.returned (), s)
    else
      match getTchMusicInfo net s with
      | ((_, some err), s) => (.returned (), s.emit (.logError (some err)))
      | ((none, none), s) => (.returned (), s.emit (.logError (some "can not fetch song")))
      | ((some song, none), s) =>
        let s := s.emit (.logInfo ("tch_song: " ++ song.Name))
        match playSong client song s with
        | (.panicked msg, s) => (.panicked msg, s)
        | (.returned (some err), s) => (.returned (), s.emit (.logError (some err)))
        | (.returned none, s) => (.returned (), s)

/-- The loop of `startApp` (line 181), cut after `n` iterations: the body runs
first, the tick is awaited between iterations, and a panic ends the process. -/
def startApp {σ : Type} (client : spotify.Client σ) (net : Net σ) : Nat → State σ → Outcome Unit × State σ
  | 0, s => (.returned (), s)
  | n + 1, s =>
    match pollIteration client net s with
    | (.panicked msg, s) => (.panicked msg, s)
    | (.returned (), s) => startApp client net n (s.emit .tick)

/-! ## Trace predicates used by the statements -/

/-- An event that `playTrack` may produce for a track. -/
def isPlayEvent (track : spotify.SimpleTrack) (e : Event) : Prop :=
  e = .logInfo ("play: " ++ track.Name) ∨ e = .PlayerState ∨ e = .PlayerDevices ∨
    ∃ device, e = .PlayOpt { DeviceID := device, URIs := [track.URI] }

/-- State `t` continues state `s` with the same seed cache and without a
top-artists call. -/
def Quiet {σ : Type} (s t : State σ) : Prop :=
  t.availableGenreSeeds = s.availableGenreSeeds ∧
    ∃ tail, t.trace = s.trace ++ tail ∧ Event.CurrentUsersTopArtists ∉ tail

/-- State `t` continues state `s`: its trace extends the trace of `s`. -/
def Extends {σ : Type} (s t : State σ) : Prop := ∃ tail, t.trace = s.trace ++ tail

/-! ## Start-up: `init` and `main`

The configuration store (viper), the file system and the browser login are
inputs: `GetString` and `GetTime` read the configuration merged from file,
flags and environment. -/

/-- What `viper.ReadInConfig` reports. -/
inductive ReadConfigResult where
  | ok
  | ConfigFileNotFoundError
  | otherError (e : Error)
  deriving DecidableEq, Repr

/-- An `oauth2.Token`, as far as the program sets it; `Expiry` is an instant. -/
structure Token where
  AccessToken : String
  Expiry : Int
  RefreshToken : String
  deriving DecidableEq, Repr

/-- A value handed to `viper.Set`. -/
inductive ConfigValue where
  | str (v : String)
  | time (t : Int)
  deriving DecidableEq, Repr

/-- The surroundings of start-up.  `WriteConfig n` is the error of the `n`-th
call of `viper.WriteConfig`; `login` is the outcome of the browser flow of
`login()` (lines 143-175), an action outside this model. -/
structure Env where
  UserHomeDir : Except Error String
  ReadInConfig : ReadConfigResult
  Join : String → String → String
  Create : String → Option Error
  GetString : String → String
  GetTime : String → Int
  WriteConfig : Nat → Option Error
  Now : Int
  login : Except Error Token

/-- Observable actions of start-up, in program order.  `Fatal` is a
`log.Fatal()` event, which ends the process, with its `missing_fields`, error
and message. -/
inductive StartupEvent where
  | Create (path : String)
  | WriteConfig
  | NewAuthenticator (redirectURL : String) (scopes : List String)
  | SetAuthInfo (clientID : String) (secretKey : String)
  | login
  | Set (key : String) (value : ConfigValue)
  | startApp (token : Token)
  | Fatal (missing_fields : List String) (err : Option Error) (msg : String)
  deriving DecidableEq, Repr

/-- A start-up run: what happened, and whether the process was terminated. -/
structure Startup where
  trace : List StartupEvent
  exited : Bool
  deriving DecidableEq, Repr

def ScopeUserModifyPlaybackState : String := "user-modify-playback-state"
def ScopeUserReadPlaybackState : String := "user-read-playback-state"
def ScopeUserReadCurrentlyPlaying : String := "user-read-currently-playing"
def ScopeUserTopRead : String := "user-top-read"

/-- The function `init` (lines 59-113), from the home-directory lookup on. -/
def init (env : Env) : Startup :=
  match env.UserHomeDir with
  | .error getHomeDirErr => { trace := [.Fatal [] (some getHomeDirErr) ""], exited := true }
  | .ok homeDir =>
    let read : Startup :=
      match env.ReadInConfig with
      | .ConfigFileNotFoundError =>
        let configPath := env.Join homeDir (configName ++ "." ++ configType)
        match env.Create configPath with
        | some createErr =>
          { trace := [.Create configPath, .Fatal [] (some createErr) ""], exited := true }
        | none => { trace := [.Create configPath], exited := false }
      | _ => { trace := [], exited := false }
    if read.exited then
      read
    else if env.GetString "client_id" = "" then
      { trace := read.trace ++ [.Fatal ["client_id"] none "required fields missing"],
        exited := true }
    else if env.GetString "secret_key" = "" then
      { trace := read.trace ++ [.Fatal ["secret_key"] none "required fields missing"],
        exited := true }
    else
      match env.WriteConfig 0 with
      | some err =>
        { trace := read.trace ++ [.WriteConfig, .Fatal [] (some err) "can not save config"],
          exited := true }
      | none =>
        { trace := read.trace ++
            [.WriteConfig,
             .NewAuthenticator ("http://" ++ loginServerAddress ++ loginCallbackPath)
               [ScopeUserModifyPlaybackState, ScopeUserReadPlaybackState,
                ScopeUserReadCurrentlyPlaying, ScopeUserTopRead],
             .SetAuthInfo (env.GetString "client_id") (env.GetString "secret_key")],
          exited := false }

/-- The function `main` (lines 115-141); `startApp` never returns, so the run
ends with the `startApp` event. -/
def main (env : Env) : Startup :=
  let accessToken := env.GetString "access_token"
  let accessTokenExpiry := env.GetTime "access_token_expiry"
  if accessToken = "" ∨ accessTokenExpiry < env.Now then
    match env.login with
    | .error err => { trace := [.login, .Fatal [] (some err) ""], exited := true }
    | .ok token =>
      let sets : List StartupEvent :=
        [.login, .Set "access_token" (.str token.AccessToken),
         .Set "access_token_expiry" (.time token.Expiry),
         .Set "refresh_token" (.str token.RefreshToken), .WriteConfig]
      match env.WriteConfig 1 with
      | some err => { trace := sets ++ [.Fatal [] (some err) ""], exited := true }
      | none => { trace := sets ++ [.startApp token], exited := false }
  else
    let refreshToken := env.GetString "refresh_token"
    { trace :=
        [.startApp
          { AccessToken := accessToken, Expiry := accessTokenExpiry, RefreshToken := refreshToken }],
      exited := false }

/-- The process: Go runs `init` and then, unless the process was terminated,
`main`. -/
def run (env : Env) : Startup :=
  let i := init env
  if i.exited then i
  else { trace := i.trace ++ (main env).trace, exited := (main env).exited }

/-- Whether a start-up action needs the network: the browser login (with its
token exchange) and the poll loop do. -/
def StartupEvent.isNetwork : StartupEvent → Bool
  | .login => true
  | .startApp _ => true
  | _ => false

/-! ## Concrete worlds

A scripted provider and feed over the one-point world: every call answers with
a fixed response. -/

/-- A provider whose every method answers with the given fixed response. -/
def scriptedClient (ps : Except Error spotify.PlayerState)
    (search : Except Error spotify.SearchResult)
    (top : Option spotify.FullArtistPage × Option Error)
    (recs : Except Error spotify.Recommendations)
    (devices : Except Error (List spotify.PlayerDevice))
    (play : Option Error) : spotify.Client Unit :=
  { PlayerState := fun w => (ps, w)
    SearchOpt := fun _ _ w => (search, w)
    CurrentUsersTopArtists := fun w => (top, w)
    GetRecommendations := fun _ w => (recs, w)
    PlayerDevices := fun w => (devices, w)
    PlayOpt := fun _ w => (play, w) }

/-- A feed whose request succeeds with the given body outcome and decoder. -/
def scriptedNet (resp : Except Error Response) (decode : String → Except Error MusicInfo) :
    Net Unit :=
  { NewRequest := fun _ _ => none
    Do := fun _ _ w => (resp, w)
    Unmarshal := decode }

/-- The state at process start: nil seed cache, empty trace. -/
def State.init : State Unit :=
  { world := (), availableGenreSeeds := StringSlice.nil, trace := [] }

/-- A player that is not playing and reports no device. -/
def idlePlayer : spotify.PlayerState := { Playing := false, Device := { ID := "" } }

/-- A player that is playing on device `d1`. -/
def busyPlayer : spotify.PlayerState := { Playing := true, Device := { ID := "d1" } }

/-- A player that is not playing and reports the current device `d1`. -/
def pausedPlayer : spotify.PlayerState := { Playing := false, Device := { ID := "d1" } }

/-- A sample catalog track. -/
def sampleTrack : spotify.SimpleTrack := { URI := "spotify:track:1", Name := "One" }

/-- A sample recommended track. -/
def otherTrack : spotify.SimpleTrack := { URI := "spotify:track:2", Name := "Two" }

/-- A sample feed song. -/
def sampleSong : Song := { Song.zero with Name := "One", Artist := "Band" }

/-- A search result with one match. -/
def oneMatch : spotify.SearchResult :=
  { Tracks := { Total := 1, Tracks := [{ SimpleTrack := sampleTrack }] } }

/-- A search result without a match. -/
def noMatch : spotify.SearchResult := { Tracks := { Total := 0, Tracks := [] } }

/-- A top-artists page whose first artist has four genres. -/
def fourGenres : spotify.FullArtistPage :=
  { Artists := [{ Genres := StringSlice.lit ["rock", "indie", "folk", "jazz"] }] }

/-- A provider without a catalog match: top artists and recommendations answer
as given, the player is idle and play commands succeed. -/
def noMatchClient (top : Option spotify.FullArtistPage × Option Error) : spotify.Client Unit :=
  scriptedClient (.ok idlePlayer) (.ok noMatch) top (.ok { Tracks := [otherTrack] }) (.ok []) none

/-- A provider with one catalog match and an idle player. -/
def matchClient : spotify.Client Unit :=
  scriptedClient (.ok idlePlayer) (.ok oneMatch) (none, none) (.ok { Tracks := [] }) (.ok []) none

/-- A feed answering with the JSON document `\x7b\x7d`, which has no `current`
object: decoding leaves the zero `MusicInfo`. -/
def emptyFeed : Net Unit :=
  scriptedNet (.ok { Body := .ok "\x7b\x7d" }) (fun _ => .ok MusicInfo.zero)

/-- A provider with one catalog match whose player and device listing answer
as given. -/
def deviceClient (ps : spotify.PlayerState)
    (devices : Except Error (List spotify.PlayerDevice)) : spotify.Client Unit :=
  scriptedClient (.ok ps) (.ok oneMatch) (none, none) (.ok { Tracks := [] }) devices none

/-- The state of `State.init` after the catalog search for the sample song. -/
def searchedState : State Unit :=
  State.init.step (.SearchOpt (searchQuery sampleSong) searchOptions) ()

/-- A feed for which the request cannot be built. -/
def brokenRequestFeed : Net Unit :=
  { NewRequest := fun _ _ => some "invalid URL"
    Do := fun _ _ w => (.error "unreachable", w)
    Unmarshal := fun _ => .ok MusicInfo.zero }

/-- A feed whose HTTP request fails. -/
def downFeed : Net Unit :=
  scriptedNet (.error "timeout") (fun _ => .ok MusicInfo.zero)

/-- A start-up environment with a complete configuration whose cached token
expires at instant 200, read at instant 100. -/
def sampleEnv : Env :=
  { UserHomeDir := .ok "/home/u"
    ReadInConfig := .ok
    Join := fun a b => a ++ "/" ++ b
    Create := fun _ => none
    GetString := fun k =>
      if k = "client_id" then "id" else if k = "secret_key" then "secret"
      else if k = "access_token" then "tok" else if k = "refresh_token" then "ref" else ""
    GetTime := fun _ => 200
    WriteConfig := fun _ => none
    Now := 100
    login := .error "no browser" }

/-- The sample environment with the client id missing from the configuration. -/
def envWithoutClientID : Env :=
  { sampleEnv with GetString := fun k => if k = "client_id" then "" else sampleEnv.GetString k }


/-! ## The poll loop -/

/-- Claim C1: in a poll iteration whose `PlayerState` query succeeds and
reports `Playing = true`, the iteration ends right after that query: the state
only gains the `PlayerState` event (no feed request, no search, no
recommendation, no device listing, no play command, cache untouched), and in
the loop the next event is the tick. -/
theorem pollIteration_playing_skips {σ : Type} (client : spotify.Client σ) (net : Net σ)
    (s : State σ) (playerState : spotify.PlayerState) (w : σ)
    (hstate : client.PlayerState s.world = (.ok playerState, w))
    (hplaying : playerState.Playing = true) :
    pollIteration client net s = (.returned (), s.step .PlayerState w) ∧
    (pollIteration client net s).2.trace = s.trace ++ [Event.PlayerState] ∧
    (pollIteration client net s).2.availableGenreSeeds = s.availableGenreSeeds ∧
    ∀ n, startApp client net (n + 1) s =
      startApp client net n { s with world := w, trace := s.trace ++ [.PlayerState, .tick] } := by
  have h : pollIteration client net s = (.returned (), s.step .PlayerState w) := by
    simp [pollIteration, hstate, hplaying]
  refine ⟨h, ?_, ?_, ?_⟩
  · rw [h]; rfl
  · rw [h]; rfl
  · intro n
    simp [startApp, h, State.step, State.emit]

/-- Witness of C1: a playing player at process start. -/
theorem pollIteration_playing_skips_witness :
    (pollIteration (scriptedClient (.ok busyPlayer) (.ok oneMatch) (none, none)
        (.ok { Tracks := [] }) (.ok []) none)
      (scriptedNet (.ok { Body := .ok "" }) (fun _ => .ok MusicInfo.zero)) State.init).2.trace
      = [Event.PlayerState] :=
  (pollIteration_playing_skips
    (scriptedClient (.ok busyPlayer) (.ok oneMatch) (none, none) (.ok { Tracks := [] }) (.ok []) none)
    (scriptedNet (.ok { Body := .ok "" }) (fun _ => .ok MusicInfo.zero)) State.init
    busyPlayer () rfl rfl).2.1

/-! ## Start-up -/

/-- Claim C4: with a non-empty cached access token whose expiry is later than
the current time, `main` performs exactly one action, `startApp`, on a token
holding the cached access token, expiry and refresh token: no login, no
`viper.Set`, no `WriteConfig`. -/
theorem main_reuses_cached_token (env : Env)
    (htoken : env.GetString "access_token" ≠ "")
    (hexpiry : env.Now < env.GetTime "access_token_expiry") :
    main env =
      { trace := [.startApp
          { AccessToken := env.GetString "access_token"
            Expiry := env.GetTime "access_token_expiry"
            RefreshToken := env.GetString "refresh_token" }]
        exited := false } ∧
    StartupEvent.login ∉ (main env).trace ∧ StartupEvent.WriteConfig ∉ (main env).trace := by
  have h : ¬ (env.GetString "access_token" = "" ∨ env.GetTime "access_token_expiry" < env.Now) := by
    intro h
    rcases h with h | h
    · exact htoken h
    · exact absurd h (not_lt.mpr (le_of_lt hexpiry))
  simp [main, h]

/-- Witness of C4: the sample environment, token valid until 200, read at 100. -/
theorem main_reuses_cached_token_witness :
    main sampleEnv =
      { trace := [.startApp { AccessToken := "tok", Expiry := 200, RefreshToken := "ref" }]
        exited := false } :=
  (main_reuses_cached_token sampleEnv (by decide) (by decide)).1

/-- Claim C5: when the merged configuration has an empty `client_id` or an
empty `secret_key`, the process is terminated inside `init` (so `main` never
runs) and its whole run contains no `WriteConfig`, no `NewAuthenticator` and
no network action; when both are non-empty, no "required fields missing"
fatal event occurs, and once the home directory and the config file are in
place `init` goes on to `WriteConfig`. -/
theorem init_requires_credentials (env : Env) :
    ((env.GetString "client_id" = "" ∨ env.GetString "secret_key" = "") →
      (run env).exited = true ∧ run env = init env ∧
      StartupEvent.WriteConfig ∉ (run env).trace ∧
      (∀ url scopes, StartupEvent.NewAuthenticator url scopes ∉ (run env).trace) ∧
      (∀ e ∈ (run env).trace, e.isNetwork = false)) ∧
    ((env.GetString "client_id" ≠ "" ∧ env.GetString "secret_key" ≠ "") →
      (∀ fields err, StartupEvent.Fatal fields err "required fields missing" ∉ (init env).trace) ∧
      (∀ homeDir, env.UserHomeDir = .ok homeDir →
        (env.ReadInConfig = .ConfigFileNotFoundError →
          env.Create (env.Join homeDir (configName ++ "." ++ configType)) = none) →
        StartupEvent.WriteConfig ∈ (init env).trace)) := by
  constructor
  · intro hmissing
    have hinit : (init env).exited = true ∧ StartupEvent.WriteConfig ∉ (init env).trace ∧
        (∀ url scopes, StartupEvent.NewAuthenticator url scopes ∉ (init env).trace) ∧
        (∀ e ∈ (init env).trace, e.isNetwork = false) := by
      unfold init
      cases hhome : env.UserHomeDir with
      | error e => simp [StartupEvent.isNetwork]
      | ok homeDir =>
        cases hread : env.ReadInConfig with
        | ConfigFileNotFoundError =>
          cases hcreate : env.Create (env.Join homeDir (configName ++ "." ++ configType)) with
          | some e => simp [hcreate, StartupEvent.isNetwork]
          | none =>
            rcases hmissing with h | h
            · simp [hcreate, h, StartupEvent.isNetwork]
            · by_cases hid : env.GetString "client_id" = "" <;>
                simp [hcreate, h, hid, StartupEvent.isNetwork]
        | ok =>
          rcases hmissing with h | h
          · simp [h, StartupEvent.isNetwork]
          · by_cases hid : env.GetString "client_id" = "" <;> simp [h, hid, StartupEvent.isNetwork]
        | otherError e =>
          rcases hmissing with h | h
          · simp [h, StartupEvent.isNetwork]
          · by_cases hid : env.GetString "client_id" = "" <;> simp [h, hid, StartupEvent.isNetwork]
    have hrun : run env = init env := by simp [run, hinit.1]
    rw [hrun]
    exact ⟨hinit.1, rfl, hinit.2.1, hinit.2.2.1, hinit.2.2.2⟩
  · rintro ⟨hid, hsecret⟩
    constructor
    · intro fields err
      unfold init
      cases hhome : env.UserHomeDir with
      | error e => simp
      | ok homeDir =>
        cases hread : env.ReadInConfig with
        | ConfigFileNotFoundError =>
          cases hcreate : env.Create (env.Join homeDir (configName ++ "." ++ configType)) with
          | some e => simp [hcreate]
          | none => cases hwrite : env.WriteConfig 0 <;> simp [hcreate, hid, hsecret, hwrite]
        | ok => cases hwrite : env.WriteConfig 0 <;> simp [hid, hsecret, hwrite]
        | otherError e => cases hwrite : env.WriteConfig 0 <;> simp [hid, hsecret, hwrite]
    · intro homeDir hhome hcreate
      unfold init
      cases hread : env.ReadInConfig with
      | ConfigFileNotFoundError =>
        cases hwrite : env.WriteConfig 0 <;>
          simp [hhome, hcreate hread, hid, hsecret, hwrite]
      | ok => cases hwrite : env.WriteConfig 0 <;> simp [hhome, hid, hsecret, hwrite]
      | otherError e => cases hwrite : env.WriteConfig 0 <;> simp [hhome, hid, hsecret, hwrite]

/-- Witness of C5: the sample configuration without a client id is stopped
before anything is written, and the complete sample configuration passes the
validation and reaches `WriteConfig`. -/
theorem init_requires_credentials_witness :
    ((run envWithoutClientID).exited = true ∧ run envWithoutClientID = init envWithoutClientID ∧
      StartupEvent.WriteConfig ∉ (run envWithoutClientID).trace ∧
      (∀ url scopes, StartupEvent.NewAuthenticator url scopes ∉ (run envWithoutClientID).trace) ∧
      (∀ e ∈ (run envWithoutClientID).trace, e.isNetwork = false)) ∧
    (∀ fields err,
        StartupEvent.Fatal fields err "required fields missing" ∉ (init sampleEnv).trace) ∧
    StartupEvent.WriteConfig ∈ (init sampleEnv).trace :=
  ⟨(init_requires_credentials envWithoutClientID).1 (Or.inl (by decide)),
   ((init_requires_credentials sampleEnv).2 ⟨by decide, by decide⟩).1,
   ((init_requires_credentials sampleEnv).2 ⟨by decide, by decide⟩).2 "/home/u" rfl
      (fun h => absurd h (by decide))⟩

/-! ## Track resolution and playback -/

/-- The playback half of `playSong` leaves the seed cache alone and only
extends the trace, by its log line, the state and device queries, and play
commands for the given track. -/
theorem playTrack_frame {σ : Type} (client : spotify.Client σ) (track : spotify.SimpleTrack)
    (s : State σ) :
    (playTrack client track s).2.availableGenreSeeds = s.availableGenreSeeds ∧
    ∃ tail, (playTrack client track s).2.trace = s.trace ++ tail ∧
      ∀ e ∈ tail, isPlayEvent track e := by
  unfold playTrack
  simp only [State.emit, State.step]
  split
  · refine ⟨rfl, [.logInfo ("play: " ++ track.Name), .PlayerState], by simp, ?_⟩
    intro e he
    simp at he
    rcases he with he | he <;> simp [isPlayEvent, he]
  · split
    · split
      · refine ⟨rfl, [.logInfo ("play: " ++ track.Name), .PlayerState, .PlayerDevices],
          by simp, ?_⟩
        intro e he
        simp at he
        rcases he with he | he | he <;> simp [isPlayEvent, he]
      · split
        · refine ⟨rfl, [.logInfo ("play: " ++ track.Name), .PlayerState, .PlayerDevices],
            by simp, ?_⟩
          intro e he
          simp at he
          rcases he with he | he | he <;> simp [isPlayEvent, he]
        · rename_i d _ _
          split <;>
          · refine ⟨rfl, [.logInfo ("play: " ++ track.Name), .PlayerState, .PlayerDevices,
              .PlayOpt { DeviceID := some d.ID, URIs := [track.URI] }], by simp, ?_⟩
            intro e he
            simp at he
            rcases he with he | he | he | he <;> simp [isPlayEvent, he]
    · split <;>
      · refine ⟨rfl, [.logInfo ("play: " ++ track.Name), .PlayerState,
          .PlayOpt { DeviceID := none, URIs := [track.URI] }], by simp, ?_⟩
        intro e he
        simp at he
        rcases he with he | he | he <;> simp [isPlayEvent, he]

/-- Once a track is selected, `playSong` is the playback half run on it. -/
theorem playSong_of_selected {σ : Type} (client : spotify.Client σ) (song : Song)
    (s0 s : State σ) (track : spotify.SimpleTrack)
    (hselect : selectTrack client song s0 = (.returned (.ok track), s)) :
    playSong client song s0 =
      (.returned (playTrack client track s).1, (playTrack client track s).2) := by
  simp [playSong, hselect]

/-- Claim C2: when the search succeeds with `Total > 0` and a first track,
`playSong` selects that first track; the run makes no top-artists call and no
recommendation call and leaves the seed cache alone.  What follows the search
is fixed in every case: when the player-state query succeeds, the play command
is sent, with or without a device id, and its URIs are exactly that track's
URI; when that query or the device listing fails, or no device is listed, the
error is returned and no play command is sent. -/
theorem playSong_match_selects_first_track {σ : Type} (client : spotify.Client σ) (song : Song)
    (s : State σ) (searchResult : spotify.SearchResult) (w : σ) (t : spotify.FullTrack)
    (rest : List spotify.FullTrack)
    (hsearch : client.SearchOpt (searchQuery song) searchOptions s.world = (.ok searchResult, w))
    (htotal : 0 < searchResult.Tracks.Total)
    (hfirst : searchResult.Tracks.Tracks = t :: rest) :
    selectTrack client song s =
      (.returned (.ok t.SimpleTrack), s.step (.SearchOpt (searchQuery song) searchOptions) w) ∧
    playSong client song s =
      (.returned
        (playTrack client t.SimpleTrack (s.step (.SearchOpt (searchQuery song) searchOptions) w)).1,
       (playTrack client t.SimpleTrack (s.step (.SearchOpt (searchQuery song) searchOptions) w)).2) ∧
    (playSong client song s).2.availableGenreSeeds = s.availableGenreSeeds ∧
    (∃ tail, (playSong client song s).2.trace
        = s.trace ++ [Event.SearchOpt (searchQuery song) searchOptions] ++ tail ∧
      Event.CurrentUsersTopArtists ∉ tail ∧
      (∀ seeds, Event.GetRecommendations seeds ∉ tail) ∧
      ∀ opts, Event.PlayOpt opts ∈ tail → opts.URIs = [t.SimpleTrack.URI]) ∧
    (∀ playerState w2, client.PlayerState w = (.ok playerState, w2) →
      playerState.Device.ID = "" →
      playSong client song s =
        (.returned
          (client.PlayOpt { DeviceID := none, URIs := [t.SimpleTrack.URI] } w2).1,
          { s with
            world := (client.PlayOpt { DeviceID := none, URIs := [t.SimpleTrack.URI] } w2).2
            trace := s.trace ++
              [.SearchOpt (searchQuery song) searchOptions,
               .logInfo ("play: " ++ t.SimpleTrack.Name), .PlayerState,
               .PlayOpt { DeviceID := none, URIs := [t.SimpleTrack.URI] }] })) ∧
    (∀ playerState w2 d ds w3, client.PlayerState w = (.ok playerState, w2) →
      playerState.Device.ID ≠ "" →
      client.PlayerDevices w2 = (.ok (d :: ds), w3) →
      playSong client song s =
        (.returned
          (client.PlayOpt { DeviceID := some d.ID, URIs := [t.SimpleTrack.URI] } w3).1,
          { s with
            world := (client.PlayOpt { DeviceID := some d.ID, URIs := [t.SimpleTrack.URI] } w3).2
            trace := s.trace ++
              [.SearchOpt (searchQuery song) searchOptions,
               .logInfo ("play: " ++ t.SimpleTrack.Name), .PlayerState, .PlayerDevices,
               .PlayOpt { DeviceID := some d.ID, URIs := [t.SimpleTrack.URI] }] })) ∧
    (∀ err w2, client.PlayerState w = (.error err, w2) →
      playSong client song s =
        (.returned (some err),
          { s with
            world := w2
            trace := s.trace ++
              [.SearchOpt (searchQuery song) searchOptions,
               .logInfo ("play: " ++ t.SimpleTrack.Name), .PlayerState] })) ∧
    (∀ playerState w2 w3, client.PlayerState w = (.ok playerState, w2) →
      playerState.Device.ID ≠ "" →
      client.PlayerDevices w2 = (.ok [], w3) →
      playSong client song s =
        (.returned (some "no device"),
          { s with
            world := w3
            trace := s.trace ++
              [.SearchOpt (searchQuery song) searchOptions,
               .logInfo ("play: " ++ t.SimpleTrack.Name), .PlayerState, .PlayerDevices] })) ∧
    (∀ playerState w2 err w3, client.PlayerState w = (.ok playerState, w2) →
      playerState.Device.ID ≠ "" →
      client.PlayerDevices w2 = (.error err, w3) →
      playSong client song s =
        (.returned (some err),
          { s with
            world := w3
            trace := s.trace ++
              [.SearchOpt (searchQuery song) searchOptions,
               .logInfo ("play: " ++ t.SimpleTrack.Name), .PlayerState, .PlayerDevices] })) := by
  have hsel : selectTrack client song s =
      (.returned (.ok t.SimpleTrack), s.step (.SearchOpt (searchQuery song) searchOptions) w) := by
    simp [selectTrack, hsearch, htotal, hfirst]
  have hplay := playSong_of_selected client song s _ _ hsel
  obtain ⟨hcache, tail, htrace, htail⟩ :=
    playTrack_frame client t.SimpleTrack (s.step (.SearchOpt (searchQuery song) searchOptions) w)
  refine ⟨hsel, hplay, ?_, ⟨tail, ?_, ?_, ?_, ?_⟩, ?_, ?_, ?_, ?_, ?_⟩
  · rw [hplay]; exact hcache
  · rw [hplay]; exact htrace
  · intro h
    have := htail _ h
    simp [isPlayEvent] at this
  · intro seeds h
    have := htail _ h
    simp [isPlayEvent] at this
  · intro opts h
    have := htail _ h
    simp only [isPlayEvent] at this
    rcases this with h1 | h1 | h1 | ⟨d, h1⟩
    · cases h1
    · cases h1
    · cases h1
    · cases h1; rfl
  · intro playerState w2 hstate hdev
    rw [hplay]
    cases hopt : client.PlayOpt { DeviceID := none, URIs := [t.SimpleTrack.URI] } w2 with
    | mk err w4 =>
      cases err <;> simp [playTrack, State.emit, State.step, hstate, hdev, hopt]
  · intro playerState w2 d ds w3 hstate hdev hdevices
    rw [hplay]
    cases hopt : client.PlayOpt { DeviceID := some d.ID, URIs := [t.SimpleTrack.URI] } w3 with
    | mk err w4 =>
      cases err <;> simp [playTrack, State.emit, State.step, hstate, hdev, hdevices, hopt]
  · intro err w2 hstate
    rw [hplay]
    simp [playTrack, State.emit, State.step, hstate]
  · intro playerState w2 w3 hstate hdev hdevices
    rw [hplay]
    simp [playTrack, State.emit, State.step, hstate, hdev, hdevices]
  · intro playerState w2 err w3 hstate hdev hdevices
    rw [hplay]
    simp [playTrack, State.emit, State.step, hstate, hdev, hdevices]

/-- Witness of C2: one catalog match.  With an idle player without device the
whole call is the search, the log line, the state query and the play command
for the matched track's URI; with a current device the same command goes to
the first listed device. -/
theorem playSong_match_selects_first_track_witness :
    playSong matchClient sampleSong State.init =
      (.returned none,
        { State.init with
          world := ()
          trace := State.init.trace ++
            [.SearchOpt (searchQuery sampleSong) searchOptions,
             .logInfo ("play: " ++ sampleTrack.Name), .PlayerState,
             .PlayOpt { DeviceID := none, URIs := [sampleTrack.URI] }] }) ∧
    playSong (deviceClient pausedPlayer (.ok [{ ID := "d2" }, { ID := "d1" }])) sampleSong
        State.init =
      (.returned none,
        { State.init with
          world := ()
          trace := State.init.trace ++
            [.SearchOpt (searchQuery sampleSong) searchOptions,
             .logInfo ("play: " ++ sampleTrack.Name), .PlayerState, .PlayerDevices,
             .PlayOpt { DeviceID := some "d2", URIs := [sampleTrack.URI] }] }) ∧
    (playSong matchClient sampleSong State.init).2.trace =
      [.SearchOpt "track:One artist:Band" { Country := some "VN", Limit := some 1 },
       .logInfo "play: One", .PlayerState,
       .PlayOpt { DeviceID := none, URIs := ["spotify:track:1"] }] :=
  ⟨(playSong_match_selects_first_track matchClient sampleSong State.init oneMatch ()
      { SimpleTrack := sampleTrack } [] rfl (by decide) rfl).2.2.2.2.1 idlePlayer () rfl rfl,
   (playSong_match_selects_first_track
      (deviceClient pausedPlayer (.ok [{ ID := "d2" }, { ID := "d1" }])) sampleSong State.init
      oneMatch () { SimpleTrack := sampleTrack } [] rfl (by decide) rfl).2.2.2.2.2.1
        pausedPlayer () { ID := "d2" } [{ ID := "d1" }] () rfl (by decide) rfl,
   congrArg (fun r => r.2.trace)
    ((playSong_match_selects_first_track matchClient sampleSong State.init oneMatch ()
      { SimpleTrack := sampleTrack } [] rfl (by decide) rfl).2.2.2.2.1 idlePlayer () rfl rfl)⟩

/-- Claim C10: after a track is selected and the `PlayerState` query of
`playSong` succeeds: with a non-empty current device id the devices are listed,
and then an empty list gives the error "no device" with no play command, a
non-empty list gives a play command for the first listed device (a failed
listing returns its error, again with no play command); with an empty device id
no listing happens and the play command has no device id.  Each play command
carries exactly the selected track's URI. -/
theorem playSong_device_targeting {σ : Type} (client : spotify.Client σ) (song : Song)
    (s0 s : State σ) (track : spotify.SimpleTrack) (playerState : spotify.PlayerState) (w : σ)
    (hselect : selectTrack client song s0 = (.returned (.ok track), s))
    (hstate : client.PlayerState s.world = (.ok playerState, w)) :
    (playerState.Device.ID ≠ "" →
      (∀ w2, client.PlayerDevices w = (.ok [], w2) →
        playSong client song s0 =
          (.returned (some "no device"),
            { s with
              world := w2
              trace := s.trace ++
                [.logInfo ("play: " ++ track.Name), .PlayerState, .PlayerDevices] })) ∧
      (∀ d ds w2, client.PlayerDevices w = (.ok (d :: ds), w2) →
        playSong client song s0 =
          (.returned (client.PlayOpt { DeviceID := some d.ID, URIs := [track.URI] } w2).1,
            { s with
              world := (client.PlayOpt { DeviceID := some d.ID, URIs := [track.URI] } w2).2
              trace := s.trace ++
                [.logInfo ("play: " ++ track.Name), .PlayerState, .PlayerDevices,
                 .PlayOpt { DeviceID := some d.ID, URIs := [track.URI] }] })) ∧
      (∀ err w2, client.PlayerDevices w = (.error err, w2) →
        playSong client song s0 =
          (.returned (some err),
            { s with
              world := w2
              trace := s.trace ++
                [.logInfo ("play: " ++ track.Name), .PlayerState, .PlayerDevices] }))) ∧
    (playerState.Device.ID = "" →
      playSong client song s0 =
        (.returned (client.PlayOpt { DeviceID := none, URIs := [track.URI] } w).1,
          { s with
            world := (client.PlayOpt { DeviceID := none, URIs := [track.URI] } w).2
            trace := s.trace ++
              [.logInfo ("play: " ++ track.Name), .PlayerState,
               .PlayOpt { DeviceID := none, URIs := [track.URI] }] })) := by
  rw [playSong_of_selected client song s0 s track hselect]
  refine ⟨fun hdev => ⟨?_, ?_, ?_⟩, ?_⟩
  · intro w2 hdevices
    simp [playTrack, State.emit, State.step, hstate, hdev, hdevices]
  · intro d ds w2 hdevices
    cases hplay : client.PlayOpt { DeviceID := some d.ID, URIs := [track.URI] } w2 with
    | mk err w3 =>
      cases err <;> simp [playTrack, State.emit, State.step, hstate, hdev, hdevices, hplay]
  · intro err w2 hdevices
    simp [playTrack, State.emit, State.step, hstate, hdev, hdevices]
  · intro hdev
    cases hplay : client.PlayOpt { DeviceID := none, URIs := [track.URI] } w with
    | mk err w3 =>
      cases err <;> simp [playTrack, State.emit, State.step, hstate, hdev, hplay]

/-- Witness of C10: with the current device `d1` reported, an empty listing
gives "no device", a listing `d2, d1` sends the play command to `d2`, a failed
listing returns its error; with no current device the play command carries no
device id. -/
theorem playSong_device_targeting_witness :
    (playSong (deviceClient pausedPlayer (.ok [])) sampleSong State.init =
      (.returned (some "no device"),
        { searchedState with
          world := ()
          trace := searchedState.trace ++
            [.logInfo ("play: " ++ sampleTrack.Name), .PlayerState, .PlayerDevices] })) ∧
    (playSong (deviceClient pausedPlayer (.ok [{ ID := "d2" }, { ID := "d1" }])) sampleSong
        State.init).2.trace
      = [.SearchOpt (searchQuery sampleSong) searchOptions, .logInfo "play: One", .PlayerState,
          .PlayerDevices, .PlayOpt { DeviceID := some "d2", URIs := ["spotify:track:1"] }] ∧
    (playSong (deviceClient pausedPlayer (.error "forbidden")) sampleSong State.init =
      (.returned (some "forbidden"),
        { searchedState with
          world := ()
          trace := searchedState.trace ++
            [.logInfo ("play: " ++ sampleTrack.Name), .PlayerState, .PlayerDevices] })) ∧
    (playSong (deviceClient idlePlayer (.ok [{ ID := "d2" }])) sampleSong State.init).2.trace
      = [.SearchOpt (searchQuery sampleSong) searchOptions, .logInfo "play: One", .PlayerState,
          .PlayOpt { DeviceID := none, URIs := ["spotify:track:1"] }] :=
  ⟨((playSong_device_targeting (deviceClient pausedPlayer (.ok [])) sampleSong State.init
        searchedState sampleTrack pausedPlayer () rfl rfl).1 (by decide)).1 () rfl,
   congrArg (fun r => r.2.trace)
      (((playSong_device_targeting
        (deviceClient pausedPlayer (.ok [{ ID := "d2" }, { ID := "d1" }])) sampleSong State.init
        searchedState sampleTrack pausedPlayer () rfl rfl).1 (by decide)).2.1
          { ID := "d2" } [{ ID := "d1" }] () rfl),
   ((playSong_device_targeting (deviceClient pausedPlayer (.error "forbidden")) sampleSong
        State.init searchedState sampleTrack pausedPlayer () rfl rfl).1 (by decide)).2.2
          "forbidden" () rfl,
   congrArg (fun r => r.2.trace)
      ((playSong_device_targeting (deviceClient idlePlayer (.ok [{ ID := "d2" }])) sampleSong
        State.init searchedState sampleTrack idlePlayer () rfl rfl).2 rfl)⟩

/-! ## The genre-seed cache -/

/-- A successful `s[:4]` has length exactly 4. -/
theorem StringSlice.sliceTo_four_len (s g : StringSlice) (h : s.sliceTo 4 = some g) :
    g.len = 4 := by
  unfold StringSlice.sliceTo at h
  split at h
  · rename_i hcap
    cases h
    simp only [StringSlice.cap] at hcap
    simp [StringSlice.len]
    omega
  · cases h

/-- With a non-empty cache the seed computation does nothing. -/
theorem seedGenres_of_nonempty {σ : Type} (client : spotify.Client σ) (s : State σ)
    (h : s.availableGenreSeeds.len ≠ 0) : seedGenres client s = (.returned (), s) := by
  simp [seedGenres, h]

/-- When the seed computation returns, the cache is non-empty. -/
theorem seedGenres_returned_nonempty {σ : Type} (client : spotify.Client σ) (s : State σ)
    (h : (seedGenres client s).1.isPanic = false) :
    (seedGenres client s).2.availableGenreSeeds.len ≠ 0 := by
  by_cases hlen : s.availableGenreSeeds.len = 0
  · have hnil : s.availableGenreSeeds.elems = [] := by simpa [StringSlice.len] using hlen
    rcases hcall : client.CurrentUsersTopArtists s.world with ⟨⟨topArtists, err⟩, w⟩
    cases err with
    | some e =>
      cases topArtists <;> simp [seedGenres, hnil, hcall, StringSlice.lit, StringSlice.len]
    | none =>
      cases topArtists with
      | none => simp [seedGenres, hnil, hcall, StringSlice.lit, StringSlice.len]
      | some page =>
        cases hartists : page.Artists with
        | nil => simp [seedGenres, hlen, hcall, hartists, Outcome.isPanic] at h
        | cons artist rest =>
          cases hslice : artist.Genres.sliceTo 4 with
          | none => simp [seedGenres, hlen, hcall, hartists, hslice, Outcome.isPanic] at h
          | some genres =>
            have hfour := StringSlice.sliceTo_four_len _ _ hslice
            simp [seedGenres, hlen, hcall, hartists, hslice, hfour]
  · rw [seedGenres_of_nonempty client s hlen]
    exact hlen

theorem Quiet.same {σ : Type} (s : State σ) : Quiet s s :=
  ⟨rfl, [], by simp, by simp⟩

theorem Quiet.andThen {σ : Type} {s t u : State σ} (h1 : Quiet s t) (h2 : Quiet t u) : Quiet s u := by
  obtain ⟨hc1, tail1, ht1, hn1⟩ := h1
  obtain ⟨hc2, tail2, ht2, hn2⟩ := h2
  refine ⟨hc2.trans hc1, tail1 ++ tail2, ?_, ?_⟩
  · rw [ht2, ht1, List.append_assoc]
  · simp [hn1, hn2]

theorem Quiet.afterStep {σ : Type} (s : State σ) (e : Event) (w : σ)
    (he : e ≠ Event.CurrentUsersTopArtists) : Quiet s (s.step e w) :=
  ⟨rfl, [e], rfl, by simpa using he.symm⟩

theorem Quiet.afterEmit {σ : Type} (s : State σ) (e : Event)
    (he : e ≠ Event.CurrentUsersTopArtists) : Quiet s (s.emit e) :=
  ⟨rfl, [e], rfl, by simpa using he.symm⟩

theorem playTrack_quiet {σ : Type} (client : spotify.Client σ) (track : spotify.SimpleTrack)
    (s : State σ) : Quiet s (playTrack client track s).2 := by
  obtain ⟨hcache, tail, htrace, htail⟩ := playTrack_frame client track s
  refine ⟨hcache, tail, htrace, ?_⟩
  intro h
  have := htail _ h
  simp [isPlayEvent] at this

theorem selectTrack_quiet {σ : Type} (client : spotify.Client σ) (song : Song) (s : State σ)
    (h : s.availableGenreSeeds.len ≠ 0) : Quiet s (selectTrack client song s).2 := by
  rcases hsearch : client.SearchOpt (searchQuery song) searchOptions s.world with ⟨r, w⟩
  cases r with
  | error err =>
    simp only [selectTrack, hsearch]
    exact Quiet.afterStep _ _ _ (by simp)
  | ok searchResult =>
    have h1 : Quiet s (s.step (.SearchOpt (searchQuery song) searchOptions) w) :=
      Quiet.afterStep _ _ _ (by simp)
    by_cases htotal : searchResult.Tracks.Total > 0
    · cases htracks : searchResult.Tracks.Tracks <;>
        simpa [selectTrack, hsearch, htotal, htracks] using h1
    · have h2 : Quiet s ((s.step (.SearchOpt (searchQuery song) searchOptions) w).emit
          (.logInfo ("song not found: " ++ song.Name))) :=
        h1.andThen (Quiet.afterEmit _ _ (by simp))
      have hseed := seedGenres_of_nonempty client
        ((s.step (.SearchOpt (searchQuery song) searchOptions) w).emit
          (.logInfo ("song not found: " ++ song.Name))) h
      simp only [selectTrack, hsearch, htotal, if_false, hseed]
      split
      · exact h2.andThen (Quiet.afterStep _ _ _ (by simp))
      · split
        · exact h2.andThen (Quiet.afterStep _ _ _ (by simp))
        · exact (h2.andThen (Quiet.afterStep _ _ _ (by simp))).andThen (Quiet.afterEmit _ _ (by simp))

theorem playSong_quiet {σ : Type} (client : spotify.Client σ) (song : Song) (s : State σ)
    (h : s.availableGenreSeeds.len ≠ 0) : Quiet s (playSong client song s).2 := by
  have hsel := selectTrack_quiet client song s h
  unfold playSong
  split
  · simpa [*] using hsel
  · simpa [*] using hsel
  · rename_i heq
    rw [heq] at hsel
    exact hsel.andThen (playTrack_quiet client _ _)

theorem getTchMusicInfo_quiet {σ : Type} (net : Net σ) (s : State σ) :
    Quiet s (getTchMusicInfo net s).2 := by
  unfold getTchMusicInfo
  simp only
  split
  · exact Quiet.same s
  · split
    · exact Quiet.afterStep _ _ _ (by simp)
    · split
      · exact Quiet.afterStep _ _ _ (by simp)
      · split <;> exact Quiet.afterStep _ _ _ (by simp)

theorem pollIteration_quiet {σ : Type} (client : spotify.Client σ) (net : Net σ) (s : State σ)
    (h : s.availableGenreSeeds.len ≠ 0) : Quiet s (pollIteration client net s).2 := by
  unfold pollIteration
  split
  · exact (Quiet.afterStep _ _ _ (by simp)).andThen (Quiet.afterEmit _ _ (by simp))
  · rename_i playerState w _
    have h1 : Quiet s (s.step .PlayerState w) := Quiet.afterStep _ _ _ (by simp)
    simp only
    split
    · exact h1
    · have h2 := h1.andThen (getTchMusicInfo_quiet net (s.step .PlayerState w))
      split
      · rename_i heq
        rw [heq] at h2
        exact h2.andThen (Quiet.afterEmit _ _ (by simp))
      · rename_i heq
        rw [heq] at h2
        exact h2.andThen (Quiet.afterEmit _ _ (by simp))
      · rename_i song s1 heq
        rw [heq] at h2
        have h3 : Quiet s (s1.emit (.logInfo ("tch_song: " ++ song.Name))) :=
          h2.andThen (Quiet.afterEmit _ _ (by simp))
        have hlen : (s1.emit (.logInfo ("tch_song: " ++ song.Name))).availableGenreSeeds.len ≠ 0 := by
          rw [h3.1]; exact h
        have h4 := h3.andThen (playSong_quiet client song _ hlen)
        split
        · rename_i heq2
          rw [heq2] at h4
          exact h4
        · rename_i heq2
          rw [heq2] at h4
          exact h4.andThen (Quiet.afterEmit _ _ (by simp))
        · rename_i heq2
          rw [heq2] at h4
          exact h4

theorem startApp_quiet {σ : Type} (client : spotify.Client σ) (net : Net σ) (n : Nat) :
    ∀ s : State σ, s.availableGenreSeeds.len ≠ 0 → Quiet s (startApp client net n s).2 := by
  induction n with
  | zero => intro s _; exact Quiet.same s
  | succ n ih =>
    intro s h
    have h1 := pollIteration_quiet client net s h
    unfold startApp
    split
    · rename_i heq
      rw [heq] at h1
      exact h1
    · rename_i s1 heq
      rw [heq] at h1
      have h2 : Quiet s (s1.emit .tick) := h1.andThen (Quiet.afterEmit _ _ (by simp))
      have hlen : (s1.emit .tick).availableGenreSeeds.len ≠ 0 := by
        rw [h2.1]; exact h
      exact h2.andThen (ih _ hlen)

/-- Claim C9: the seed cache is filled at most once.  After a `playSong`
call that takes the no-match path (search succeeds with `Total ≤ 0`) and
returns, the cache is non-empty; from then on every `playSong` call, and every
run of the poll loop, started from any later state holding that cache, keeps
the cache as it is and makes no top-artists call. -/
theorem availableGenreSeeds_populated_once {σ : Type} (client : spotify.Client σ) (net : Net σ)
    (song : Song) (s : State σ) (searchResult : spotify.SearchResult) (w : σ)
    (hsearch : client.SearchOpt (searchQuery song) searchOptions s.world = (.ok searchResult, w))
    (hnomatch : searchResult.Tracks.Total ≤ 0)
    (hreturns : (playSong client song s).1.isPanic = false) :
    (playSong client song s).2.availableGenreSeeds.len ≠ 0 ∧
    (∀ (later : Song) (t : State σ),
      t.availableGenreSeeds = (playSong client song s).2.availableGenreSeeds →
      (playSong client later t).2.availableGenreSeeds = t.availableGenreSeeds ∧
      ∃ tail, (playSong client later t).2.trace = t.trace ++ tail ∧
        Event.CurrentUsersTopArtists ∉ tail) ∧
    (∀ (n : Nat) (t : State σ),
      t.availableGenreSeeds = (playSong client song s).2.availableGenreSeeds →
      (startApp client net n t).2.availableGenreSeeds = t.availableGenreSeeds ∧
      ∃ tail, (startApp client net n t).2.trace = t.trace ++ tail ∧
        Event.CurrentUsersTopArtists ∉ tail) := by
  have hno : ¬ searchResult.Tracks.Total > 0 := not_lt.mpr hnomatch
  have hfilled : (playSong client song s).2.availableGenreSeeds.len ≠ 0 := by
    rcases hseed : seedGenres client
      ((s.step (.SearchOpt (searchQuery song) searchOptions) w).emit
        (.logInfo ("song not found: " ++ song.Name))) with ⟨o, s1⟩
    cases o with
    | panicked msg =>
      have hp : playSong client song s = (.panicked msg, s1) := by
        simp [playSong, selectTrack, hsearch, hno, hseed]
      rw [hp] at hreturns
      simp [Outcome.isPanic] at hreturns
    | returned u =>
      have hne : s1.availableGenreSeeds.len ≠ 0 := by
        have := seedGenres_returned_nonempty client
          ((s.step (.SearchOpt (searchQuery song) searchOptions) w).emit
            (.logInfo ("song not found: " ++ song.Name))) (by rw [hseed]; rfl)
        rwa [hseed] at this
      have hq : Quiet s1 (playSong client song s).2 := by
        simp only [playSong, selectTrack, hsearch, hno, if_false, hseed]
        rcases hrec : client.GetRecommendations { Genres := s1.availableGenreSeeds.elems }
          s1.world with ⟨r, w1⟩
        cases r with
        | error err => exact Quiet.afterStep _ _ _ (by simp)
        | ok recommendations =>
          cases htracks : recommendations.Tracks with
          | nil =>
            simp only [htracks]
            exact Quiet.afterStep _ _ _ (by simp)
          | cons t rest =>
            simp only [htracks]
            exact ((Quiet.afterStep _ _ _ (by simp)).andThen (Quiet.afterEmit _ _ (by simp))).andThen
              (playTrack_quiet client _ _)
      rw [hq.1]
      exact hne
  refine ⟨hfilled, ?_, ?_⟩
  · intro later t ht
    exact playSong_quiet client later t (by rw [ht]; exact hfilled)
  · intro n t ht
    exact startApp_quiet client net n t (by rw [ht]; exact hfilled)

/-- Witness of C9: the first no-match call fills the cache with the four
genres of the top artist; a second call from the state it leaves, and two more
iterations of the loop, keep the cache and make no top-artists call. -/
theorem availableGenreSeeds_populated_once_witness :
    (playSong (noMatchClient (some fourGenres, none)) sampleSong State.init).2.availableGenreSeeds.len
      ≠ 0 ∧
    ((playSong (noMatchClient (some fourGenres, none)) sampleSong
        (playSong (noMatchClient (some fourGenres, none)) sampleSong State.init).2).2.availableGenreSeeds
      = (playSong (noMatchClient (some fourGenres, none)) sampleSong State.init).2.availableGenreSeeds ∧
      ∃ tail, (playSong (noMatchClient (some fourGenres, none)) sampleSong
          (playSong (noMatchClient (some fourGenres, none)) sampleSong State.init).2).2.trace
        = (playSong (noMatchClient (some fourGenres, none)) sampleSong State.init).2.trace ++ tail ∧
        Event.CurrentUsersTopArtists ∉ tail) ∧
    ((startApp (noMatchClient (some fourGenres, none)) emptyFeed 2
        (playSong (noMatchClient (some fourGenres, none)) sampleSong State.init).2).2.availableGenreSeeds
      = (playSong (noMatchClient (some fourGenres, none)) sampleSong State.init).2.availableGenreSeeds ∧
      ∃ tail, (startApp (noMatchClient (some fourGenres, none)) emptyFeed 2
          (playSong (noMatchClient (some fourGenres, none)) sampleSong State.init).2).2.trace
        = (playSong (noMatchClient (some fourGenres, none)) sampleSong State.init).2.trace ++ tail ∧
        Event.CurrentUsersTopArtists ∉ tail) :=
  ⟨(availableGenreSeeds_populated_once (noMatchClient (some fourGenres, none)) emptyFeed sampleSong
      State.init noMatch () rfl (by decide) rfl).1,
   (availableGenreSeeds_populated_once (noMatchClient (some fourGenres, none)) emptyFeed sampleSong
      State.init noMatch () rfl (by decide) rfl).2.1 sampleSong _ rfl,
   (availableGenreSeeds_populated_once (noMatchClient (some fourGenres, none)) emptyFeed sampleSong
      State.init noMatch () rfl (by decide) rfl).2.2 2 _ rfl⟩

/-- Claim C3 (the code at the failing input): no catalog match, empty cache,
and a top-artists lookup that succeeds with zero artists.  `playSong` panics on
`Artists[0]`: the cache stays nil instead of becoming `["pop"]` and no
recommendation call is issued. -/
theorem playSong_empty_top_artists_panics :
    playSong (noMatchClient (some { Artists := [] }, none)) sampleSong State.init =
      (.panicked "index out of range [0] with length 0",
        { world := ()
          availableGenreSeeds := StringSlice.nil
          trace := [.SearchOpt "track:One artist:Band" { Country := some "VN", Limit := some 1 },
            .logInfo "song not found: One", .CurrentUsersTopArtists] }) ∧
    ∀ seeds, Event.GetRecommendations seeds ∉
      (playSong (noMatchClient (some { Artists := [] }, none)) sampleSong State.init).2.trace := by
  refine ⟨rfl, ?_⟩
  intro seeds
  have h : (playSong (noMatchClient (some { Artists := [] }, none)) sampleSong State.init).2.trace
      = [.SearchOpt "track:One artist:Band" { Country := some "VN", Limit := some 1 },
          .logInfo "song not found: One", .CurrentUsersTopArtists] := rfl
  rw [h]
  simp

/-- For a slice shorter than 4, `s[:4]` never yields the slice itself: it
panics, or the result has 4 entries. -/
theorem StringSlice.sliceTo_four_short (s : StringSlice) (h : s.len < 4) :
    s.sliceTo 4 = none ∨ ∃ g, s.sliceTo 4 = some g ∧ g.len = 4 ∧ g.len ≠ min s.len 4 := by
  cases hslice : s.sliceTo 4 with
  | none => exact Or.inl rfl
  | some g =>
    right
    have hfour := StringSlice.sliceTo_four_len s g hslice
    exact ⟨g, rfl, hfour, by omega⟩

/-- Claim C8 (the code at the failing input): no catalog match, empty cache,
and a first top artist with zero genres (`n = 0`).  `playSong` panics on
`Genres[:4]`, so deriving the seeds fails for `n < 4`; no recommendation call
is issued. -/
theorem playSong_artist_without_genres_panics :
    playSong (noMatchClient (some { Artists := [{ Genres := StringSlice.lit [] }] }, none))
        sampleSong State.init =
      (.panicked "slice bounds out of range [:4]",
        { world := ()
          availableGenreSeeds := StringSlice.nil
          trace := [.SearchOpt "track:One artist:Band" { Country := some "VN", Limit := some 1 },
            .logInfo "song not found: One", .CurrentUsersTopArtists] }) ∧
    (StringSlice.lit []).sliceTo 4 = none ∧
    (StringSlice.lit ["rock", "indie"]).sliceTo 4 = none ∧
    ({ elems := ["rock", "indie"], spare := ["", ""] } : StringSlice).sliceTo 4 =
      some { elems := ["rock", "indie", "", ""], spare := [] } := by
  refine ⟨rfl, ?_, ?_, ?_⟩ <;> decide

/-! ## The feed -/

/-- Claim C6: in an iteration where the player is not playing and the feed
fetch fails, no song is produced, one error is logged and the iteration ends
without any call of `playSong` (no search, no play command).  If the request
cannot even be built, its error is logged; if the HTTP request fails, the body
cannot be read or the JSON cannot be decoded, `getTchMusicInfo` returns no
song (and, returning the stale `err`, no error) and `startApp` logs
"can not fetch song". -/
theorem pollIteration_feed_failure_skips {σ : Type} (client : spotify.Client σ) (net : Net σ)
    (s : State σ) (playerState : spotify.PlayerState) (w : σ)
    (hstate : client.PlayerState s.world = (.ok playerState, w))
    (hidle : playerState.Playing = false) :
    (∀ err, net.NewRequest "GET" musicInfoEndpoint = some err →
      (getTchMusicInfo net (s.step .PlayerState w)).1 = (none, some err) ∧
      pollIteration client net s =
        (.returned (),
          { s with world := w, trace := s.trace ++ [.PlayerState, .logError (some err)] })) ∧
    (net.NewRequest "GET" musicInfoEndpoint = none →
      ((∃ getErr, (net.Do musicInfoEndpoint 5 w).1 = .error getErr) ∨
        (∃ res readErr, (net.Do musicInfoEndpoint 5 w).1 = .ok res ∧ res.Body = .error readErr) ∨
        (∃ res body jsonErr, (net.Do musicInfoEndpoint 5 w).1 = .ok res ∧ res.Body = .ok body ∧
          net.Unmarshal body = .error jsonErr)) →
      (getTchMusicInfo net (s.step .PlayerState w)).1 = (none, none) ∧
      pollIteration client net s =
        (.returned (),
          { s with
            world := (net.Do musicInfoEndpoint 5 w).2
            trace := s.trace ++
              [.PlayerState, .Feed musicInfoEndpoint,
               .logError (some "can not fetch song")] })) := by
  constructor
  · intro err hreq
    have hget : getTchMusicInfo net (s.step .PlayerState w) =
        ((none, some err), s.step .PlayerState w) := by
      simp [getTchMusicInfo, hreq]
    refine ⟨by rw [hget], ?_⟩
    simp only [pollIteration, hstate, hidle, hget]
    simp [State.step, State.emit]
  · intro hreq hfail
    have hget : getTchMusicInfo net (s.step .PlayerState w) =
        ((none, none),
          (s.step .PlayerState w).step (.Feed musicInfoEndpoint) (net.Do musicInfoEndpoint 5 w).2) := by
      rcases hdo : net.Do musicInfoEndpoint 5 w with ⟨r, w1⟩
      rw [hdo] at hfail
      rcases hfail with ⟨getErr, h⟩ | ⟨res, readErr, h, hbody⟩ | ⟨res, body, jsonErr, h, hbody, hjson⟩
      · simp only at h
        subst h
        simp [getTchMusicInfo, hreq, State.step, hdo]
      · simp only at h
        subst h
        simp [getTchMusicInfo, hreq, State.step, hdo, hbody]
      · simp only at h
        subst h
        simp [getTchMusicInfo, hreq, State.step, hdo, hbody, hjson]
    refine ⟨by rw [hget], ?_⟩
    simp only [pollIteration, hstate, hidle, hget]
    simp [State.step, State.emit]

/-- Witness of C6: an idle player, with a feed whose request cannot be built
and with a feed whose HTTP request times out. -/
theorem pollIteration_feed_failure_skips_witness :
    ((getTchMusicInfo brokenRequestFeed (State.init.step .PlayerState ())).1
        = (none, some "invalid URL") ∧
      pollIteration matchClient brokenRequestFeed State.init =
        (.returned (),
          { State.init with
            world := ()
            trace := State.init.trace ++ [.PlayerState, .logError (some "invalid URL")] })) ∧
    ((getTchMusicInfo downFeed (State.init.step .PlayerState ())).1 = (none, none) ∧
      pollIteration matchClient downFeed State.init =
        (.returned (),
          { State.init with
            world := (downFeed.Do musicInfoEndpoint 5 ()).2
            trace := State.init.trace ++
              [.PlayerState, .Feed musicInfoEndpoint, .logError (some "can not fetch song")] })) :=
  ⟨(pollIteration_feed_failure_skips matchClient brokenRequestFeed State.init idlePlayer () rfl
      rfl).1 "invalid URL" rfl,
   (pollIteration_feed_failure_skips matchClient downFeed State.init idlePlayer () rfl rfl).2 rfl
      (Or.inl ⟨"timeout", rfl⟩)⟩

theorem Extends.self {σ : Type} (s : State σ) : Extends s s := ⟨[], by simp⟩

theorem Extends.followedBy {σ : Type} {s t u : State σ} (h1 : Extends s t) (h2 : Extends t u) :
    Extends s u := by
  obtain ⟨tail1, ht1⟩ := h1
  obtain ⟨tail2, ht2⟩ := h2
  exact ⟨tail1 ++ tail2, by rw [ht2, ht1, List.append_assoc]⟩

theorem Extends.byStep {σ : Type} (s : State σ) (e : Event) (w : σ) : Extends s (s.step e w) :=
  ⟨[e], rfl⟩

theorem Extends.byEmit {σ : Type} (s : State σ) (e : Event) : Extends s (s.emit e) :=
  ⟨[e], rfl⟩

theorem seedGenres_extends {σ : Type} (client : spotify.Client σ) (s : State σ) :
    Extends s (seedGenres client s).2 := by
  unfold seedGenres
  split
  · split
    rename_i topArtists err w _
    simp only
    split
    · split
      · exact Extends.byStep _ _ _
      · split
        · exact Extends.byStep _ _ _
        · exact ⟨[.CurrentUsersTopArtists], rfl⟩
    · exact ⟨[.CurrentUsersTopArtists, .logError err], by simp [State.step, State.emit]⟩
  · exact Extends.self s

theorem selectTrack_search_first {σ : Type} (client : spotify.Client σ) (song : Song)
    (s : State σ) :
    Extends (s.step (.SearchOpt (searchQuery song) searchOptions)
      (client.SearchOpt (searchQuery song) searchOptions s.world).2) (selectTrack client song s).2 := by
  unfold selectTrack
  split
  · rename_i heq
    rw [heq]
    exact Extends.self _
  · rename_i heq
    rw [heq]
    simp only
    split
    · split <;> exact Extends.self _
    · rename_i w _
      have h1 := (Extends.byEmit (s.step (.SearchOpt (searchQuery song) searchOptions) w)
          (.logInfo ("song not found: " ++ song.Name))).followedBy (seedGenres_extends client _)
      split
      · rename_i heq2
        rw [heq2] at h1
        exact h1
      · rename_i heq2
        rw [heq2] at h1
        split
        · exact h1.followedBy (Extends.byStep _ _ _)
        · split
          · exact h1.followedBy (Extends.byStep _ _ _)
          · exact (h1.followedBy (Extends.byStep _ _ _)).followedBy (Extends.byEmit _ _)

/-- Every `playSong` call starts with the catalog search for its song. -/
theorem playSong_search_first {σ : Type} (client : spotify.Client σ) (song : Song)
    (s : State σ) :
    ∃ tail, (playSong client song s).2.trace =
      s.trace ++ Event.SearchOpt (searchQuery song) searchOptions :: tail := by
  have h1 := selectTrack_search_first client song s
  have h2 : Extends (s.step (.SearchOpt (searchQuery song) searchOptions)
      (client.SearchOpt (searchQuery song) searchOptions s.world).2) (playSong client song s).2 := by
    unfold playSong
    split
    · rename_i heq
      rw [heq] at h1
      exact h1
    · rename_i heq
      rw [heq] at h1
      exact h1
    · rename_i heq
      rw [heq] at h1
      obtain ⟨_, tail, ht, _⟩ := playTrack_frame client _ _
      exact h1.followedBy ⟨tail, ht⟩
  obtain ⟨tail, ht⟩ := h2
  exact ⟨tail, by rw [ht]; simp [State.step]⟩

/-- Claim C7 (the code at the failing input): the feed answers with valid JSON
that has no `current` object, the player is idle.  `getTchMusicInfo` returns
the zero song, not nil, so the `song == nil` guard of `startApp` does not fire:
no error is logged, the iteration goes on to `playSong`, the search for
`track: artist:` is issued and a play command is sent. -/
theorem pollIteration_empty_current_reaches_playSong :
    (getTchMusicInfo emptyFeed (State.init.step .PlayerState ())).1 = (some Song.zero, none) ∧
    pollIteration matchClient emptyFeed State.init =
      (.returned (),
        { world := ()
          availableGenreSeeds := StringSlice.nil
          trace :=
            [.PlayerState, .Feed musicInfoEndpoint, .logInfo "tch_song: ",
             .SearchOpt "track: artist:" { Country := some "VN", Limit := some 1 },
             .logInfo "play: One", .PlayerState,
             .PlayOpt { DeviceID := none, URIs := ["spotify:track:1"] }] }) ∧
    Event.logError (some "can not fetch song") ∉
      (pollIteration matchClient emptyFeed State.init).2.trace :=
  ⟨rfl, rfl, by decide⟩

/-- What the loop does with a decoded feed: in an iteration where the player
is not playing and `json.Unmarshal` accepts the body, `getTchMusicInfo` returns
the decoded `current` song, whatever its fields hold; `startApp` logs its name
and calls `playSong` with it, so the catalog search for that song is issued. -/
theorem pollIteration_decoded_feed_plays {σ : Type} (client : spotify.Client σ) (net : Net σ)
    (s : State σ) (playerState : spotify.PlayerState) (w : σ) (res : Response) (body : String)
    (musicInfo : MusicInfo)
    (hstate : client.PlayerState s.world = (.ok playerState, w))
    (hidle : playerState.Playing = false)
    (hreq : net.NewRequest "GET" musicInfoEndpoint = none)
    (hdo : (net.Do musicInfoEndpoint 5 w).1 = .ok res)
    (hbody : res.Body = .ok body)
    (hjson : net.Unmarshal body = .ok musicInfo) :
    (getTchMusicInfo net (s.step .PlayerState w)).1 = (some musicInfo.Current, none) ∧
    pollIteration client net s =
      (match playSong client musicInfo.Current
          { s with
            world := (net.Do musicInfoEndpoint 5 w).2
            trace := s.trace ++
              [.PlayerState, .Feed musicInfoEndpoint,
               .logInfo ("tch_song: " ++ musicInfo.Current.Name)] } with
        | (.panicked msg, t) => (.panicked msg, t)
        | (.returned (some err), t) => (.returned (), t.emit (.logError (some err)))
        | (.returned none, t) => (.returned (), t)) ∧
    ∃ tail, (pollIteration client net s).2.trace =
      s.trace ++
        [.PlayerState, .Feed musicInfoEndpoint, .logInfo ("tch_song: " ++ musicInfo.Current.Name),
         .SearchOpt (searchQuery musicInfo.Current) searchOptions] ++ tail := by
  have hget : getTchMusicInfo net (s.step .PlayerState w) =
      ((some musicInfo.Current, none),
        (s.step .PlayerState w).step (.Feed musicInfoEndpoint) (net.Do musicInfoEndpoint 5 w).2) := by
    rcases hdo2 : net.Do musicInfoEndpoint 5 w with ⟨r, w1⟩
    rw [hdo2] at hdo
    simp only at hdo
    subst hdo
    simp [getTchMusicInfo, hreq, State.step, hdo2, hbody, hjson]
  have hpoll : pollIteration client net s =
      (match playSong client musicInfo.Current
          { s with
            world := (net.Do musicInfoEndpoint 5 w).2
            trace := s.trace ++
              [.PlayerState, .Feed musicInfoEndpoint,
               .logInfo ("tch_song: " ++ musicInfo.Current.Name)] } with
        | (.panicked msg, t) => (.panicked msg, t)
        | (.returned (some err), t) => (.returned (), t.emit (.logError (some err)))
        | (.returned none, t) => (.returned (), t)) := by
    simp only [pollIteration, hstate, hidle, hget]
    simp [State.step, State.emit]
  refine ⟨by rw [hget], hpoll, ?_⟩
  rw [hpoll]
  obtain ⟨tail, ht⟩ := playSong_search_first client musicInfo.Current
    { s with
      world := (net.Do musicInfoEndpoint 5 w).2
      trace := s.trace ++
        [.PlayerState, .Feed musicInfoEndpoint,
         .logInfo ("tch_song: " ++ musicInfo.Current.Name)] }
  split
  · rename_i heq
    rw [heq] at ht
    exact ⟨tail, by simp only at ht; rw [ht]; simp⟩
  · rename_i err t heq
    rw [heq] at ht
    exact ⟨tail ++ [.logError (some err)], by simp only at ht; simp [State.emit, ht]⟩
  · rename_i heq
    rw [heq] at ht
    exact ⟨tail, by simp only at ht; rw [ht]; simp⟩

/-- The decoded-feed behaviour at the feed without a `current` object and an
idle player: the search for the zero song is issued. -/
theorem pollIteration_decoded_feed_plays_instance :
    ∃ tail, (pollIteration matchClient emptyFeed State.init).2.trace =
      State.init.trace ++
        [.PlayerState, .Feed musicInfoEndpoint, .logInfo ("tch_song: " ++ MusicInfo.zero.Current.Name),
         .SearchOpt (searchQuery MusicInfo.zero.Current) searchOptions] ++ tail :=
  (pollIteration_decoded_feed_plays matchClient emptyFeed State.init idlePlayer ()
    { Body := .ok "\x7b\x7d" } "\x7b\x7d" MusicInfo.zero rfl rfl rfl rfl rfl rfl).2.2

end Tchmusic
